import Mathlib

/-
Verification of the trs stream-rotator (src/src/main.rs) against its
natural-language specification.

The program is embedded shallowly:
- `resolve_hls_url` models the function of the same name; the external
  streamlink process is modelled by a `ResolverOutput` value (exit-status
  success flag and raw stdout bytes) supplied by the environment.
- The GLib main loop is modelled as a list of `LoopEvent`s (timer ticks and
  bus messages) processed sequentially; `MainLoop.quit` is the `quit` flag
  of `LoopState`, and the loop stops dispatching once it is set.
- Backend (playbin) interactions are recorded as an `Action` trace; the
  two ignored `set_state` results inside the timer callback are modelled by
  per-tick Boolean success flags carried on the tick event.
- `mainRun` models `main`: Rust's `?` early returns become the
  `ExitStatus.failure` results (a Rust `main` returning `Err` exits with a
  non-zero code after printing the error; `ExitStatus.success` is exit
  code 0).
-/

namespace Trs

/-- GStreamer element states used by the program (gst::State). -/
inductive GstState
  | null
  | ready
  | playing
deriving DecidableEq, Repr

/-- glib::ControlFlow returned by timer and watch callbacks. -/
inductive ControlFlow
  | Continue
  | Break
deriving DecidableEq, Repr

/-- Result of running the external streamlink command
(std::process::Output restricted to what the program inspects):
the success flag of the exit status, and the raw stdout bytes. -/
structure ResolverOutput where
  success : Bool
  stdout : List Nat
deriving DecidableEq, Repr

/-- The failure cases of resolve_hls_url, in source order:
non-success exit status, invalid UTF-8 stdout (String::from_utf8 error),
empty trimmed output. -/
inductive ResolveError
  | resolutionFailed
  | invalidUtf8
  | emptyResult
deriving DecidableEq, Repr

/-- UTF-8 decoding of a byte list, modelling Rust String::from_utf8:
strict UTF-8 (continuation bytes 0x80-0xBF, no overlong forms, no
surrogates, code points at most 0x10FFFF); none on any ill-formed input. -/
def utf8Decode : List Nat → Option (List Char)
  | [] => some []
  | b :: rest =>
    if b < 0x80 then
      (utf8Decode rest).map (fun cs => Char.ofNat b :: cs)
    else if b < 0xE0 then
      match rest with
      | b1 :: rest2 =>
        if 0xC2 ≤ b ∧ 0x80 ≤ b1 ∧ b1 < 0xC0 then
          (utf8Decode rest2).map
            (fun cs => Char.ofNat ((b - 0xC0) * 64 + (b1 - 0x80)) :: cs)
        else none
      | [] => none
    else if b < 0xF0 then
      match rest with
      | b1 :: b2 :: rest3 =>
        if 0x80 ≤ b1 ∧ b1 < 0xC0 ∧ 0x80 ≤ b2 ∧ b2 < 0xC0 then
          let cp := (b - 0xE0) * 4096 + (b1 - 0x80) * 64 + (b2 - 0x80)
          if 0x800 ≤ cp ∧ ¬ (0xD800 ≤ cp ∧ cp ≤ 0xDFFF) then
            (utf8Decode rest3).map (fun cs => Char.ofNat cp :: cs)
          else none
        else none
      | _ => none
    else if b < 0xF5 then
      match rest with
      | b1 :: b2 :: b3 :: rest4 =>
        if 0x80 ≤ b1 ∧ b1 < 0xC0 ∧ 0x80 ≤ b2 ∧ b2 < 0xC0 ∧ 0x80 ≤ b3 ∧ b3 < 0xC0 then
          let cp := (b - 0xF0) * 262144 + (b1 - 0x80) * 4096
                      + (b2 - 0x80) * 64 + (b3 - 0x80)
          if 0x10000 ≤ cp ∧ cp ≤ 0x10FFFF then
            (utf8Decode rest4).map (fun cs => Char.ofNat cp :: cs)
          else none
        else none
      | _ => none
    else none

/-- Rust char::is_whitespace: the Unicode White_Space property. -/
def isRustWhitespace (c : Char) : Bool :=
  [0x09, 0x0A, 0x0B, 0x0C, 0x0D, 0x20, 0x85, 0xA0, 0x1680,
   0x2028, 0x2029, 0x202F, 0x205F, 0x3000].contains c.toNat
  || (decide (0x2000 ≤ c.toNat) && decide (c.toNat ≤ 0x200A))

/-- Rust str::trim: strip whitespace characters from both ends. -/
def trimChars (cs : List Char) : List Char :=
  ((cs.dropWhile isRustWhitespace).reverse.dropWhile isRustWhitespace).reverse

/-- The error messages the program produces for each resolver failure
(the third is Rust's FromUtf8Error rendered via the error trait object). -/
def resolveErrMsg : ResolveError → String
  | .resolutionFailed => "streamlink failed to resolve stream URL"
  | .invalidUtf8 => "invalid utf-8 sequence in streamlink output"
  | .emptyResult => "streamlink returned an empty stream URL"

/-- resolve_hls_url (src/src/main.rs lines 79-99), as a function of the
external command's output: error on non-success status; decode stdout as
UTF-8 (error on invalid bytes); trim; error on empty; otherwise the
trimmed string is the resolved URL. -/
def resolve_hls_url (out : ResolverOutput) : Except ResolveError String :=
  if out.success = false then
    .error .resolutionFailed
  else
    match utf8Decode out.stdout with
    | none => .error .invalidUtf8
    | some cs =>
      let hls_url := trimChars cs
      if hls_url.isEmpty then .error .emptyResult
      else .ok (String.mk hls_url)

/-- Messages observed on the gstreamer bus (gst::MessageView restricted to
the variants the watch distinguishes). -/
inductive BusMessage
  | eos
  | error (detail : String)
  | other
deriving DecidableEq, Repr

/-- One event dispatched by the main loop: a timer tick (carrying the
success of the two ignored set_state calls made during the switch), or a
bus message delivered to the watch. -/
inductive LoopEvent
  | tick (readyOk playingOk : Bool)
  | bus (m : BusMessage)
deriving DecidableEq, Repr

/-- A backend (playbin) interaction: setting the uri property, or
requesting a state change (recorded when attempted, whether or not it
succeeds). -/
inductive Action
  | setUri (u : String)
  | setState (st : GstState)
deriving DecidableEq, Repr

/-- The mutable state reachable from the loop callbacks: the SwitchState
struct (urls, index, and the player observed through its uri and state),
the MainLoop quit flag, and the stderr lines written so far. -/
structure LoopState where
  urls : List String
  index : Nat
  uri : String
  playState : GstState
  quit : Bool
  log : List String
deriving DecidableEq, Repr

/-- The bus watch closure (src/src/main.rs lines 35-48): Eos quits the
loop; Error logs the detail to stderr and quits; everything else is
ignored. (The closure always returns ControlFlow::Continue.) -/
def busWatch (s : LoopState) (m : BusMessage) : LoopState :=
  match m with
  | .eos => { s with quit := true }
  | .error d => { s with log := s.log ++ ["gstreamer error: " ++ d], quit := true }
  | .other => s

/-- The timer callback (src/src/main.rs lines 57-65): advance the index
modulo the url count, attempt set_state(Ready) (result ignored), set the
uri property to the new url, attempt set_state(Playing) (result ignored),
and return ControlFlow::Continue so the timer stays armed. -/
def onTick (s : LoopState) (readyOk playingOk : Bool) : LoopState × ControlFlow :=
  let index2 := (s.index + 1) % s.urls.length
  let nextUrl := s.urls.getD index2 ""
  let s1 := { s with index := index2 }
  let s2 := if readyOk then { s1 with playState := GstState.ready } else s1
  let s3 := { s2 with uri := nextUrl }
  let s4 := if playingOk then { s3 with playState := GstState.playing } else s3
  (s4, ControlFlow.Continue)

/-- The backend calls attempted by one tick, in source order. -/
def tickActions (s : LoopState) : List Action :=
  [Action.setState GstState.ready,
   Action.setUri (s.urls.getD ((s.index + 1) % s.urls.length) ""),
   Action.setState GstState.playing]

/-- The main loop: dispatch events in order; once quit is set the loop
returns and no further event is dispatched. Also returns the backend
actions attempted while the loop ran. -/
def runLoop : LoopState → List LoopEvent → LoopState × List Action
  | s, [] => (s, [])
  | s, e :: es =>
    if s.quit then (s, [])
    else
      match e with
      | .tick r p =>
        let r2 := runLoop (onTick s r p).1 es
        (r2.1, tickActions s ++ r2.2)
      | .bus m =>
        let r2 := runLoop (busWatch s m) es
        (r2.1, r2.2)

/-- The loop state right after startup (src/src/main.rs lines 27, 30,
51-55): urls as resolved, index 0, uri set to the first url, backend
playing, loop not quit, nothing logged. -/
def initState (u1 u2 : String) : LoopState :=
  { urls := [u1, u2], index := 0, uri := u1, playState := GstState.playing,
    quit := false, log := [] }

/-- The environment main runs in: command-line arguments (argv without the
program name), the outcome of each fallible external call, the resolver's
behaviour per channel, and the events the loop will observe. -/
structure Env where
  args : List String
  gstInitOk : Bool
  resolver : String → ResolverOutput
  playbinBuildOk : Bool
  busOk : Bool
  startPlayOk : Bool
  addWatchOk : Bool
  events : List LoopEvent
  nullOk : Bool

/-- Process outcome: success is exit code 0; failure is a Rust main
returning Err (message printed, non-zero exit code). -/
inductive ExitStatus
  | success
  | failure (msg : String)
deriving DecidableEq, Repr

/-- What a whole run produces: the backend actions attempted in order, the
stderr lines written by the bus watch, and the exit status. -/
structure RunResult where
  trace : List Action
  log : List String
  exit : ExitStatus
deriving DecidableEq, Repr

/-- main (src/src/main.rs lines 12-71). Each Rust early return via the
question-mark operator becomes a failure result; the sequence of backend
calls is recorded in the trace. The final set_state(Null) is attempted
(recorded) whenever the loop returns, before its own success is checked. -/
def mainRun (env : Env) : RunResult :=
  if env.gstInitOk = false then ⟨[], [], .failure "failed to init gstreamer"⟩
  else
    match env.args with
    | [] => ⟨[], [], .failure "missing first twitch channel"⟩
    | [_] => ⟨[], [], .failure "missing second twitch channel"⟩
    | c1 :: c2 :: _ =>
      match resolve_hls_url (env.resolver c1) with
      | .error e => ⟨[], [], .failure (resolveErrMsg e)⟩
      | .ok u1 =>
        match resolve_hls_url (env.resolver c2) with
        | .error e => ⟨[], [], .failure (resolveErrMsg e)⟩
        | .ok u2 =>
          if env.playbinBuildOk = false then
            ⟨[], [], .failure "failed to create gstreamer playbin"⟩
          else if env.busOk = false then
            ⟨[Action.setUri u1], [], .failure "missing gstreamer bus"⟩
          else if env.startPlayOk = false then
            ⟨[Action.setUri u1, Action.setState GstState.playing], [],
              .failure "failed to change playbin state"⟩
          else if env.addWatchOk = false then
            ⟨[Action.setUri u1, Action.setState GstState.playing], [],
              .failure "failed to add bus watch"⟩
          else
            let r := runLoop (initState u1 u2) env.events
            let trace := Action.setUri u1 :: Action.setState GstState.playing
                          :: (r.2 ++ [Action.setState GstState.null])
            if env.nullOk then ⟨trace, r.1.log, .success⟩
            else ⟨trace, r.1.log, .failure "failed to change playbin state"⟩

/-- Iterated ticks with both switch-time set_state calls succeeding. -/
def tickIter (s : LoopState) : Nat → LoopState
  | 0 => s
  | k + 1 => (onTick (tickIter s k) true true).1

/-- Bytes of an ASCII string, used to build concrete resolver outputs. -/
def asciiBytes (s : String) : List Nat := s.data.map Char.toNat

/-- A resolver that always succeeds with a fixed URL. -/
def resolverOk : String → ResolverOutput := fun _ => ⟨true, asciiBytes "http://stream"⟩

/-- A fully functional environment (all external calls succeed) observing
the given loop events. -/
def okEnv (events : List LoopEvent) : Env :=
  { args := ["one", "two"], gstInitOk := true, resolver := resolverOk,
    playbinBuildOk := true, busOk := true, startPlayOk := true,
    addWatchOk := true, events := events, nullOk := true }

/-- An environment whose resolver process exits with non-success status. -/
def envResolveFail : Env :=
  { okEnv [LoopEvent.bus BusMessage.eos] with resolver := fun _ => ⟨false, []⟩ }

/-- An environment whose resolver emits bytes that are not valid UTF-8. -/
def envBadUtf8 : Env :=
  { okEnv [LoopEvent.bus BusMessage.eos] with resolver := fun _ => ⟨true, [0xFF]⟩ }

/-- An environment whose resolver emits only whitespace. -/
def envEmptyUrl : Env :=
  { okEnv [LoopEvent.bus BusMessage.eos] with resolver := fun _ => ⟨true, asciiBytes "   "⟩ }

/-- An environment given a single command-line argument. -/
def envOneArg : Env := { okEnv [LoopEvent.bus BusMessage.eos] with args := ["solo"] }

/-- An environment in which the initial set_state(Playing) call fails. -/
def envPlayFail : Env := { okEnv [LoopEvent.bus BusMessage.eos] with startPlayOk := false }

theorem onTick_urls (s : LoopState) (r p : Bool) : (onTick s r p).1.urls = s.urls := by
  cases r <;> cases p <;> simp [onTick]

theorem onTick_index (s : LoopState) (r p : Bool) :
    (onTick s r p).1.index = (s.index + 1) % s.urls.length := by
  cases r <;> cases p <;> simp [onTick]

theorem onTick_uri (s : LoopState) (r p : Bool) :
    (onTick s r p).1.uri = s.urls.getD ((s.index + 1) % s.urls.length) "" := by
  cases r <;> cases p <;> simp [onTick]

theorem onTick_quit (s : LoopState) (r p : Bool) : (onTick s r p).1.quit = s.quit := by
  cases r <;> cases p <;> simp [onTick]

theorem onTick_flow (s : LoopState) (r p : Bool) : (onTick s r p).2 = ControlFlow.Continue := by
  cases r <;> cases p <;> simp [onTick]

theorem busWatch_index (s : LoopState) (m : BusMessage) : (busWatch s m).index = s.index := by
  cases m <;> simp [busWatch]

theorem runLoop_of_quit (s : LoopState) (es : List LoopEvent) (h : s.quit = true) :
    runLoop s es = (s, []) := by
  cases es <;> simp [runLoop, h]

theorem tickIter_urls (s : LoopState) : ∀ k, (tickIter s k).urls = s.urls
  | 0 => rfl
  | k + 1 => by simp only [tickIter, onTick_urls, tickIter_urls s k]

theorem tickIter_index (s : LoopState) (h0 : s.index = 0) :
    ∀ k, (tickIter s k).index = k % s.urls.length
  | 0 => by simpa [tickIter] using h0
  | k + 1 => by
    simp only [tickIter, onTick_index, tickIter_urls, tickIter_index s h0 k,
      Nat.mod_add_mod]

/-- Claim C3: for every state with a non-empty url list and an in-range
index, one tick sets the index to (index + 1) mod len(urls) and the result
is again in range; the bus watch (the only other callback) never changes
the index, and startup sets it to 0. -/
theorem C3_index_invariant (s : LoopState) (r p : Bool)
    (hne : s.urls ≠ []) (_hidx : s.index < s.urls.length) :
    (onTick s r p).1.index = (s.index + 1) % s.urls.length ∧
    (onTick s r p).1.index < s.urls.length ∧
    (∀ (s2 : LoopState) (m : BusMessage), (busWatch s2 m).index = s2.index) ∧
    (∀ u1 u2 : String, (initState u1 u2).index = 0) := by
  refine ⟨onTick_index s r p, ?_, busWatch_index, fun u1 u2 => rfl⟩
  rw [onTick_index]
  exact Nat.mod_lt _ (List.length_pos.mpr hne)

/-- Witness for C3 at the concrete startup state for urls A, B. -/
theorem C3_index_invariant_witness :
    (initState "A" "B").urls ≠ [] ∧
    (onTick (initState "A" "B") true true).1.index < (initState "A" "B").urls.length :=
  ⟨by decide,
   (C3_index_invariant (initState "A" "B") true true (by decide) (by decide)).2.1⟩

/-- Claim C4: starting from index 0 over a non-empty url list, k ticks
leave the index at k mod len(urls) (always in range); concretely for urls
A, B one tick gives index 1 with uri B and a second tick gives index 0
with uri A. -/
theorem C4_cyclic_rotation (s : LoopState) (k : Nat)
    (hne : s.urls ≠ []) (h0 : s.index = 0) :
    (tickIter s k).index = k % s.urls.length ∧
    (tickIter s k).index < s.urls.length ∧
    (tickIter (initState "A" "B") 1).index = 1 ∧
    (tickIter (initState "A" "B") 1).uri = "B" ∧
    (tickIter (initState "A" "B") 2).index = 0 ∧
    (tickIter (initState "A" "B") 2).uri = "A" := by
  refine ⟨tickIter_index s h0 k, ?_, by decide, by decide, by decide, by decide⟩
  rw [tickIter_index s h0 k]
  exact Nat.mod_lt _ (List.length_pos.mpr hne)

/-- Witness for C4: three ticks over A, B land on index 3 mod 2 = 1. -/
theorem C4_cyclic_rotation_witness :
    (initState "A" "B").urls ≠ [] ∧
    (tickIter (initState "A" "B") 3).index = 3 % (initState "A" "B").urls.length :=
  ⟨by decide, (C4_cyclic_rotation (initState "A" "B") 3 (by decide) rfl).1⟩

/-- Claim C7: whatever the outcome of the two set_state calls made during
a switch (the per-tick flags r and p), the tick still advances the index,
still sets the uri to the next url, does not touch the quit flag, and
returns ControlFlow.Continue so the timer stays armed. -/
theorem C7_switch_failures_swallowed (s : LoopState) (r p : Bool) :
    (onTick s r p).1.index = (s.index + 1) % s.urls.length ∧
    (onTick s r p).1.uri = s.urls.getD ((s.index + 1) % s.urls.length) "" ∧
    (onTick s r p).1.quit = s.quit ∧
    (onTick s r p).2 = ControlFlow.Continue :=
  ⟨onTick_index s r p, onTick_uri s r p, onTick_quit s r p, onTick_flow s r p⟩

/-- Claim C8: any EndOfStream or Error bus message sets the quit flag;
a further bus message leaves it set; and once the flag is set the loop
dispatches nothing at all (so a second such event after shutdown has been
requested is a no-op). -/
theorem C8_shutdown_idempotent (s : LoopState) (m m2 : BusMessage)
    (es : List LoopEvent)
    (h : m = BusMessage.eos ∨ ∃ d, m = BusMessage.error d) :
    (busWatch s m).quit = true ∧
    (busWatch (busWatch s m) m2).quit = true ∧
    (∀ s2 : LoopState, s2.quit = true → runLoop s2 es = (s2, [])) := by
  have hq : (busWatch s m).quit = true := by
    rcases h with h | ⟨d, h⟩ <;> subst h <;> simp [busWatch]
  refine ⟨hq, ?_, fun s2 h2 => runLoop_of_quit s2 es h2⟩
  cases m2
  · simp [busWatch]
  · simp [busWatch]
  · simpa [busWatch] using hq

/-- Witness for C8 at a concrete post-Eos state. -/
theorem C8_shutdown_idempotent_witness :
    (busWatch (initState "A" "B") BusMessage.eos).quit = true ∧
    runLoop (busWatch (initState "A" "B") BusMessage.eos)
        [LoopEvent.bus (BusMessage.error "late")]
      = (busWatch (initState "A" "B") BusMessage.eos, []) :=
  ⟨(C8_shutdown_idempotent (initState "A" "B") BusMessage.eos BusMessage.other
      [LoopEvent.bus (BusMessage.error "late")] (Or.inl rfl)).1,
   (C8_shutdown_idempotent (initState "A" "B") BusMessage.eos BusMessage.other
      [LoopEvent.bus (BusMessage.error "late")] (Or.inl rfl)).2.2
     (busWatch (initState "A" "B") BusMessage.eos) (by decide)⟩

/-- Claim C1 fails as stated: here is a run in which startup succeeded and
the event loop exited because the backend emitted an Error event; the
error detail is written to the diagnostic stream, but the process exits
with code 0 (success), not the non-zero code the claim requires. -/
theorem C1_counterexample :
    (mainRun (okEnv [LoopEvent.bus (BusMessage.error "boom")])).log
        = ["gstreamer error: boom"] ∧
    (mainRun (okEnv [LoopEvent.bus (BusMessage.error "boom")])).exit
        = ExitStatus.success := by
  decide

/-- Claim C1 amended: when the loop exits because of a backend Error
event, the error detail is logged to the diagnostic stream but the process
exits with code 0 (when the final Null transition succeeds), exactly as it
does for EndOfStream; the exit code does not distinguish the two. -/
theorem C1_exit_code (env : Env) (c1 c2 : String) (rest : List String)
    (u1 u2 d : String) (evs : List LoopEvent)
    (hargs : env.args = c1 :: c2 :: rest)
    (hinit : env.gstInitOk = true)
    (h1 : resolve_hls_url (env.resolver c1) = .ok u1)
    (h2 : resolve_hls_url (env.resolver c2) = .ok u2)
    (hb : env.playbinBuildOk = true) (hbus : env.busOk = true)
    (hp : env.startPlayOk = true) (hw : env.addWatchOk = true)
    (hnull : env.nullOk = true)
    (hev : env.events = LoopEvent.bus (BusMessage.error d) :: evs) :
    (mainRun env).log = ["gstreamer error: " ++ d] ∧
    (mainRun env).exit = ExitStatus.success ∧
    (mainRun { env with events := [LoopEvent.bus BusMessage.eos] }).exit
      = ExitStatus.success := by
  have hq : (busWatch (initState u1 u2) (BusMessage.error d)).quit = true := by
    simp [busWatch]
  have h0 : (initState u1 u2).quit = false := rfl
  have hrun : runLoop (initState u1 u2) env.events
      = (busWatch (initState u1 u2) (BusMessage.error d), []) := by
    rw [hev]
    simp [runLoop, h0, runLoop_of_quit _ evs hq]
  refine ⟨?_, ?_, ?_⟩
  · simp only [mainRun, hargs, hinit, h1, h2, hb, hbus, hp, hw, hnull, hrun]
    simp [busWatch, initState]
  · simp only [mainRun, hargs, hinit, h1, h2, hb, hbus, hp, hw, hnull, hrun]
    simp
  · simp only [mainRun, hargs, hinit, h1, h2, hb, hbus, hp, hw, hnull]
    simp [runLoop, h0, initState, busWatch]

/-- Witness for the amended C1 at a concrete error-terminated run. -/
theorem C1_exit_code_witness :
    (mainRun (okEnv [LoopEvent.bus (BusMessage.error "boom")])).log
        = ["gstreamer error: boom"] ∧
    (mainRun (okEnv [LoopEvent.bus (BusMessage.error "boom")])).exit
        = ExitStatus.success ∧
    (mainRun { okEnv [LoopEvent.bus (BusMessage.error "boom")] with
        events := [LoopEvent.bus BusMessage.eos] }).exit = ExitStatus.success :=
  C1_exit_code (okEnv [LoopEvent.bus (BusMessage.error "boom")]) "one" "two" []
    "http://stream" "http://stream" "boom" [] rfl rfl rfl rfl rfl rfl rfl rfl rfl rfl

/-- Claim C2 fails as stated: with one channel identifier present (and
every external call functioning), the program does not start; it fails at
startup asking for the second channel. -/
theorem C2_counterexample :
    mainRun envOneArg = ⟨[], [], ExitStatus.failure "missing second twitch channel"⟩ := by
  decide

/-- Claim C2 amended: the program requires exactly two positional channel
identifiers; supplying zero or one of them is a fatal startup error with
a descriptive message and a non-zero exit code, and arguments beyond the
second are ignored. -/
theorem C2_two_args_required (env : Env) (c1 c2 : String) (rest : List String)
    (hg : env.gstInitOk = true) :
    (env.args = [] →
      mainRun env = ⟨[], [], ExitStatus.failure "missing first twitch channel"⟩) ∧
    (env.args = [c1] →
      mainRun env = ⟨[], [], ExitStatus.failure "missing second twitch channel"⟩) ∧
    (env.args = c1 :: c2 :: rest →
      mainRun env = mainRun { env with args := [c1, c2] }) := by
  refine ⟨fun h => by simp [mainRun, hg, h], fun h => by simp [mainRun, hg, h], fun h => ?_⟩
  simp [mainRun, hg, h]

/-- Witness for the amended C2: one argument fails; a third argument is
ignored. -/
theorem C2_two_args_required_witness :
    (mainRun envOneArg = ⟨[], [], ExitStatus.failure "missing second twitch channel"⟩) ∧
    (mainRun { okEnv [LoopEvent.bus BusMessage.eos] with args := ["one", "two", "extra"] }
      = mainRun { okEnv [LoopEvent.bus BusMessage.eos] with args := ["one", "two"] }) :=
  ⟨(C2_two_args_required envOneArg "solo" "x" [] rfl).2.1 rfl,
   (C2_two_args_required
      { okEnv [LoopEvent.bus BusMessage.eos] with args := ["one", "two", "extra"] }
      "one" "two" ["extra"] rfl).2.2 rfl⟩

/-- Claim C5: when both channels resolve and the backend is constructed,
the loop starts from a state with index 0, uri equal to the first resolved
url, and the backend playing; and in the run's backend-call trace the
initial setUri and setState(Playing) come before everything else, so
before any timer tick. -/
theorem C5_initialization (env : Env) (c1 c2 : String) (rest : List String)
    (u1 u2 : String)
    (hargs : env.args = c1 :: c2 :: rest) (hinit : env.gstInitOk = true)
    (h1 : resolve_hls_url (env.resolver c1) = .ok u1)
    (h2 : resolve_hls_url (env.resolver c2) = .ok u2)
    (hb : env.playbinBuildOk = true) (hbus : env.busOk = true)
    (hp : env.startPlayOk = true) (hw : env.addWatchOk = true) :
    (initState u1 u2).uri = u1 ∧
    (initState u1 u2).playState = GstState.playing ∧
    (initState u1 u2).index = 0 ∧
    ∃ laterActions, (mainRun env).trace =
      Action.setUri u1 :: Action.setState GstState.playing :: laterActions := by
  refine ⟨rfl, rfl, rfl,
    (runLoop (initState u1 u2) env.events).2 ++ [Action.setState GstState.null], ?_⟩
  by_cases hn : env.nullOk <;>
    simp [mainRun, hargs, hinit, h1, h2, hb, hbus, hp, hw, hn]

/-- Witness for C5 at a concrete fully-successful environment. -/
theorem C5_initialization_witness :
    (initState "http://stream" "http://stream").index = 0 ∧
    ∃ laterActions, (mainRun (okEnv [LoopEvent.bus BusMessage.eos])).trace =
      Action.setUri "http://stream" :: Action.setState GstState.playing :: laterActions :=
  ⟨(C5_initialization (okEnv [LoopEvent.bus BusMessage.eos]) "one" "two" []
      "http://stream" "http://stream" rfl rfl rfl rfl rfl rfl rfl rfl).2.2.1,
   (C5_initialization (okEnv [LoopEvent.bus BusMessage.eos]) "one" "two" []
      "http://stream" "http://stream" rfl rfl rfl rfl rfl rfl rfl rfl).2.2.2⟩

/-- Claim C6: resolution fails with ResolutionFailed on non-success exit
status, fails with EmptyResult when the output trims to nothing, and
otherwise returns the trimmed output; and when a channel resolves to an
empty result the run performs no backend action at all (the controller
never initializes) and exits with the corresponding error. -/
theorem C6_resolver_contract (out : ResolverOutput) (cs : List Char) (env : Env)
    (c1 c2 : String) (rest : List String) :
    (out.success = false → resolve_hls_url out = .error .resolutionFailed) ∧
    (out.success = true → utf8Decode out.stdout = some cs → trimChars cs = [] →
      resolve_hls_url out = .error .emptyResult) ∧
    (out.success = true → utf8Decode out.stdout = some cs → trimChars cs ≠ [] →
      resolve_hls_url out = .ok (String.mk (trimChars cs))) ∧
    (env.gstInitOk = true → env.args = c1 :: c2 :: rest →
      resolve_hls_url (env.resolver c1) = .error .emptyResult →
      mainRun env = ⟨[], [], ExitStatus.failure "streamlink returned an empty stream URL"⟩) := by
  refine ⟨fun h => by simp [resolve_hls_url, h], fun hs hd ht => ?_, fun hs hd ht => ?_,
    fun hg ha hr => ?_⟩
  · simp [resolve_hls_url, hs, hd, ht]
  · simp [resolve_hls_url, hs, hd, List.isEmpty_iff, ht]
  · simp [mainRun, hg, ha, hr, resolveErrMsg]

/-- Witness for C6: a whitespace-only resolver output yields EmptyResult
and the whole run performs no backend action. -/
theorem C6_resolver_contract_witness :
    resolve_hls_url ⟨true, asciiBytes "   "⟩ = .error .emptyResult ∧
    mainRun envEmptyUrl
      = ⟨[], [], ExitStatus.failure "streamlink returned an empty stream URL"⟩ :=
  ⟨(C6_resolver_contract ⟨true, asciiBytes "   "⟩ [' ', ' ', ' '] envEmptyUrl
      "one" "two" []).2.1 rfl rfl rfl,
   (C6_resolver_contract ⟨true, asciiBytes "   "⟩ [' ', ' ', ' '] envEmptyUrl
      "one" "two" []).2.2.2 rfl rfl rfl⟩

/-- Claim C9 fails as stated: here is a run in which a prior operation
failed (the resolver exited with non-success status) and teardown — the
transition to the Null state — is never attempted before the process
exits: the backend-call trace contains no setState(Null). -/
theorem C9_counterexample :
    (mainRun envResolveFail).exit
        = ExitStatus.failure "streamlink failed to resolve stream URL" ∧
    Action.setState GstState.null ∉ (mainRun envResolveFail).trace := by
  decide

/-- Claim C9 amended: teardown is attempted before exit on every run whose
startup fully succeeded — including runs whose loop exited because of a
backend Error event, and even when the Null transition itself fails — but
a failed startup step returns early without attempting teardown. -/
theorem C9_teardown_after_loop (env : Env) (c1 c2 : String) (rest : List String)
    (u1 u2 : String)
    (hargs : env.args = c1 :: c2 :: rest) (hinit : env.gstInitOk = true)
    (h1 : resolve_hls_url (env.resolver c1) = .ok u1)
    (h2 : resolve_hls_url (env.resolver c2) = .ok u2)
    (hb : env.playbinBuildOk = true) (hbus : env.busOk = true)
    (hp : env.startPlayOk = true) (hw : env.addWatchOk = true) :
    ∃ earlierActions, (mainRun env).trace
      = earlierActions ++ [Action.setState GstState.null] := by
  refine ⟨Action.setUri u1 :: Action.setState GstState.playing
    :: (runLoop (initState u1 u2) env.events).2, ?_⟩
  by_cases hn : env.nullOk <;>
    simp [mainRun, hargs, hinit, h1, h2, hb, hbus, hp, hw, hn]

/-- Witness for the amended C9 at a concrete error-terminated run. -/
theorem C9_teardown_after_loop_witness :
    ∃ earlierActions, (mainRun (okEnv [LoopEvent.bus (BusMessage.error "boom")])).trace
      = earlierActions ++ [Action.setState GstState.null] :=
  C9_teardown_after_loop (okEnv [LoopEvent.bus (BusMessage.error "boom")])
    "one" "two" [] "http://stream" "http://stream" rfl rfl rfl rfl rfl rfl rfl rfl

set_option maxHeartbeats 1000000 in
/-- Claim C10: when the resolver process reports success but its stdout
bytes are not valid UTF-8, resolution fails with the decoding error (the
stdout is necessarily non-empty), and the whole run aborts at startup with
that error and no backend action. -/
theorem C10_invalid_utf8 (out : ResolverOutput) (env : Env)
    (c1 c2 : String) (rest : List String)
    (hs : out.success = true) (hd : utf8Decode out.stdout = none) :
    resolve_hls_url out = .error .invalidUtf8 ∧
    out.stdout ≠ [] ∧
    (env.gstInitOk = true → env.args = c1 :: c2 :: rest → env.resolver c1 = out →
      mainRun env = ⟨[], [], ExitStatus.failure "invalid utf-8 sequence in streamlink output"⟩) := by
  have hres : resolve_hls_url out = .error .invalidUtf8 := by
    simp [resolve_hls_url, hs, hd]
  refine ⟨hres, ?_, fun hg ha hr => ?_⟩
  · intro h
    rw [h] at hd
    have hnil : utf8Decode [] = some [] := rfl
    simp [hnil] at hd
  · simp only [mainRun, hg, ha, hr, hres, resolveErrMsg]
    simp

/-- Witness for C10 at the concrete invalid byte 0xFF. -/
theorem C10_invalid_utf8_witness :
    resolve_hls_url ⟨true, [0xFF]⟩ = .error .invalidUtf8 ∧
    mainRun envBadUtf8
      = ⟨[], [], ExitStatus.failure "invalid utf-8 sequence in streamlink output"⟩ :=
  ⟨(C10_invalid_utf8 ⟨true, [0xFF]⟩ envBadUtf8 "one" "two" [] rfl rfl).1,
   (C10_invalid_utf8 ⟨true, [0xFF]⟩ envBadUtf8 "one" "two" [] rfl rfl).2.2 rfl rfl rfl⟩

end Trs
